import Mathlib

/-!
Verification development for the caching gateway of the risk-api repository
(class `YFinanceService` in `app/yfinance_service.py`).

The Python service is shallowly embedded: each service method becomes a Lean
function from its inputs, the current cache contents, and the outcome of the
single upstream provider call it may perform, to a trace recording the
returned value, the cache writes it issued (in program order), and whether
the cache and the provider were consulted.  Pandas tables are modelled as
explicit index/column structures; Python dictionaries and JSON payloads as
an inductive value type with Python truthiness.
-/

/-- A JSON-like Python value: the payloads stored in the cache and the
dictionaries returned by the upstream provider. -/
inductive JVal where
  | null
  | bool (b : Bool)
  | num (n : Int)
  | str (s : String)
  | arr (items : List JVal)
  | obj (fields : List (String × JVal))

/-- Python truthiness: `None`, `False`, `0`, the empty string, the empty list
and the empty dict are falsy; everything else is truthy. -/
def JVal.truthy : JVal → Bool
  | .null => false
  | .bool b => b
  | .num n => n != 0
  | .str s => !s.data.isEmpty
  | .arr items => !items.isEmpty
  | .obj fields => !fields.isEmpty

/-- Whether the value is Python `None`. -/
def JVal.isNull : JVal → Bool
  | .null => true
  | _ => false

/-- The element list of a value known to be a Python list (a non-list gives
the empty list; the service only slices values it stored as lists). -/
def JVal.arrItems : JVal → List JVal
  | .arr items => items
  | _ => []

/-- The field list of a value known to be a Python dict (a non-dict gives the
empty list). -/
def JVal.objFields : JVal → List (String × JVal)
  | .obj fields => fields
  | _ => []

/-- Whether the value is a Python list or dict, i.e.
`isinstance(v, (list, dict))`. -/
def JVal.isListOrDict : JVal → Bool
  | .arr _ => true
  | .obj _ => true
  | _ => false

/-- Python `d.get(k)`: the value stored under `k`, or `None` when absent. -/
def pyGet (fields : List (String × JVal)) (k : String) : JVal :=
  match fields.find? (fun kv => kv.1 == k) with
  | some kv => kv.2
  | none => .null

/-- Python `a or b`: `a` when truthy, else `b`. -/
def pyOr (a b : JVal) : JVal := if a.truthy then a else b

/-- Digit count of the decimal rendering of a natural number; the first
argument is recursion fuel (always sufficient at the call below). -/
def natDigitCount : Nat → Nat → Nat
  | 0, _ => 1
  | fuel + 1, n => if n < 10 then 1 else 1 + natDigitCount fuel (n / 10)

/-- Length of the Python decimal rendering of an integer. -/
def pyNumStrLen : Int → Nat
  | .ofNat m => natDigitCount m m
  | .negSucc m => 1 + natDigitCount (m + 1) (m + 1)

mutual

/-- Length of the Python `str(v)` rendering of a value, as used by the size
filter `len(str(v)) > 1000` in `get_ticker_info` (nested containers render
via `repr`: `None`/`True`/`False`, quoted strings, `[a, b]` lists and
`k: v` dicts with two-character separators and delimiters). -/
def pyStrLen : JVal → Nat
  | .null => 4
  | .bool true => 4
  | .bool false => 5
  | .num n => pyNumStrLen n
  | .str s => s.data.length + 2
  | .arr items => 2 + pyStrLenList items + 2 * (items.length - 1)
  | .obj fields => 2 + pyStrLenObj fields + 2 * (fields.length - 1)

/-- Sum of the rendering lengths of the elements of a list value. -/
def pyStrLenList : List JVal → Nat
  | [] => 0
  | v :: vs => pyStrLen v + pyStrLenList vs

/-- Sum of the rendering lengths of the entries of a dict value
(quoted key, colon-space, value). -/
def pyStrLenObj : List (String × JVal) → Nat
  | [] => 0
  | (k, v) :: kvs => (k.data.length + 2 + 2 + pyStrLen v) + pyStrLenObj kvs

end

/-- Python `s.upper()`, modelled as per-character upper-casing (the service
only upper-cases ticker symbols, which are within the ASCII range). -/
def pyUpper (s : String) : String := ⟨s.data.map Char.toUpper⟩

/-- Python `s.lower()`, modelled as per-character lower-casing. -/
def pyLower (s : String) : String := ⟨s.data.map Char.toLower⟩

/-- Python `str(b)` for a boolean: `True` or `False`, as interpolated into
the historical cache key by the f-string. -/
def pyBoolStr (b : Bool) : String := if b then "True" else "False"

/-- Lexicographic code-point comparison of character lists: the order Python
uses to compare strings in `sorted`. -/
def charListLe : List Char → List Char → Bool
  | [], _ => true
  | _ :: _, [] => false
  | a :: as, b :: bs =>
    if a.toNat < b.toNat then true
    else if b.toNat < a.toNat then false
    else charListLe as bs

/-- Python string comparison `a <= b` (lexicographic by code point). -/
def pyStrLe (a b : String) : Bool := charListLe a.data b.data

/-- The string order as a decidable relation, for sorting. -/
def pyStrLeP (a b : String) : Prop := pyStrLe a b = true

instance : DecidableRel pyStrLeP := fun a b => instDecidableEqBool (pyStrLe a b) true

/-- Python `sorted` on a list of strings: the ascending reordering under the
code-point order (Python sorts stably; on the antisymmetric string order the
sorted permutation is unique, so insertion sort models it exactly). -/
def pySortStrings (l : List String) : List String := List.insertionSort pyStrLeP l

/-- One cache entry as written by `redis_service.set_cached_data`: a key, a
JSON payload, and the expiry (TTL, seconds) requested at the write. -/
structure CacheEntry where
  key : String
  value : JVal
  ttl : Nat

/-- Modelled from the spec: the CacheStore collaborator (`redis_service`,
whose module is not part of the analysed sources) is a key-value store with
`get(key) -> value | absent` and `set(key, value, ttl)` where a later write
to the same key overwrites an earlier one (last-writer-wins).  The cache is
represented newest-write-first. -/
abbrev Cache := List CacheEntry

/-- `redis_service.get_cached_data`: the most recently written value under
the key, or `none` when the key is absent. -/
def cacheGet (c : Cache) (k : String) : Option JVal :=
  match c.find? (fun e => e.key == k) with
  | some e => some e.value
  | none => none

/-- The most recently written value and its requested TTL. -/
def cacheGetEntry (c : Cache) (k : String) : Option (JVal × Nat) :=
  match c.find? (fun e => e.key == k) with
  | some e => some (e.value, e.ttl)
  | none => none

/-- `redis_service.set_cached_data`: prepend the new entry, so that reads see
the newest write. -/
def cacheSet (c : Cache) (k : String) (v : JVal) (ttl : Nat) : Cache :=
  ⟨k, v, ttl⟩ :: c

/-- Apply a list of writes (in program order) to a cache. -/
def applyWrites (c : Cache) (ws : List CacheEntry) : Cache :=
  ws.foldl (fun acc w => cacheSet acc w.key w.value w.ttl) c

/-- The outcome of the single upstream provider call an operation may make:
the call either raises an exception or returns a payload. -/
inductive Upstream (α : Type) where
  | exn
  | val (a : α)

/-- An HTTP error raised by the service (`fastapi.HTTPException`):
status code and detail message. -/
structure HTTPEx where
  status : Nat
  detail : String
deriving DecidableEq

/-- The observable behaviour of one service call: its result, the cache
writes it issued in program order, and whether it consulted the cache
respectively the upstream provider. -/
structure OpTrace (α : Type) where
  result : α
  writes : List CacheEntry
  cacheRead : Bool
  providerCalled : Bool

/-- The per-operation TTL table from `YFinanceService.__init__`
(`self.cache_duration`). -/
def cacheDuration (k : String) : Nat :=
  if k == "ticker_info" then 300
  else if k == "historical" then 600
  else if k == "search" then 1800
  else if k == "validation" then 3600
  else 0

/-- The cache key of `validate_ticker` (line 58):
`f"ticker_validation:{ticker.upper()}"`. -/
def validationCacheKey (ticker : String) : String :=
  "ticker_validation:" ++ pyUpper ticker

/-- The cache key of `get_ticker_info` (line 103):
`f"ticker_info:{ticker.upper()}"`. -/
def tickerInfoCacheKey (ticker : String) : String :=
  "ticker_info:" ++ pyUpper ticker

/-- `YFinanceService.validate_ticker` (lines 28-88): syntactic checks first
(empty, too long, disallowed character — each raising a 400 before any cache
or provider interaction), then the `ticker_validation:{UPPER}` cache lookup
(a cached falsy value raises 404, a truthy one returns `True`), then the
provider fetch: `is_valid` — true when the payload is non-empty and its
`regularMarketPrice` entry is not `None` — is cached with the validation
TTL; an invalid result then raises
a 404 which the functions own broad `except` catches, re-caching `False`
with a 60 second expiry before re-raising 404.  A provider exception caches
`False` for 60 seconds and raises 404. -/
def validateTicker (ticker : String) (cache : Cache)
    (provider : Upstream (List (String × JVal))) : OpTrace (Except HTTPEx Bool) :=
  if ticker.data.isEmpty then
    ⟨.error ⟨400, "Ticker symbol is required"⟩, [], false, false⟩
  else if ticker.data.length > 10 then
    ⟨.error ⟨400, "Ticker symbol is too long (max 10 characters)"⟩, [], false, false⟩
  else if !(ticker.data.all fun c => c.isAlphanum || c == '.' || c == '^') then
    ⟨.error ⟨400, "Invalid ticker symbol format (only alphanumeric, dots and carets allowed)"⟩,
      [], false, false⟩
  else
    let key := validationCacheKey ticker
    match cacheGet cache key with
    | some v =>
      if !v.truthy then ⟨.error ⟨404, "Ticker not found or invalid."⟩, [], true, false⟩
      else ⟨.ok true, [], true, false⟩
    | none =>
      match provider with
      | .exn =>
        ⟨.error ⟨404, "Ticker not found or invalid."⟩, [⟨key, .bool false, 60⟩], true, true⟩
      | .val info =>
        let isValid := (!info.isEmpty) && !(pyGet info "regularMarketPrice").isNull
        if isValid then
          ⟨.ok true, [⟨key, .bool isValid, cacheDuration "validation"⟩], true, true⟩
        else
          ⟨.error ⟨404, "Ticker not found or invalid."⟩,
            [⟨key, .bool isValid, cacheDuration "validation"⟩, ⟨key, .bool false, 60⟩],
            true, true⟩

/-- The field blocklist of `get_ticker_info`. -/
def infoBlocklist : List String :=
  ["companyOfficers", "fullTimeEmployees", "longBusinessSummary"]

/-- The dict comprehension of `get_ticker_info` (lines 119-121): keep a field
unless its key is blocklisted or its value is a list/dict whose rendering
exceeds 1000 characters. -/
def cleanInfo (info : List (String × JVal)) : List (String × JVal) :=
  info.filter fun kv =>
    !(infoBlocklist.contains kv.1) && !(kv.2.isListOrDict && decide (pyStrLen kv.2 > 1000))

/-- The fetch-and-cache path of `get_ticker_info` (lines 109-135), reached on
a cache miss or falsy cache hit.  The 404 raised for an empty provider info
(line 113) sits inside the same `try` as the fetch, so the broad
`except Exception` (line 130) catches it and re-raises the 503 used for
provider failures; hence both the empty-info case and the provider-exception
case surface as the 503, and neither writes to the cache. -/
def fetchTickerInfo (ticker key : String)
    (provider : Upstream (List (String × JVal))) : OpTrace (Except HTTPEx JVal) :=
  match provider with
  | .exn =>
    ⟨.error ⟨503, "Unable to retrieve data for ticker: " ++ ticker⟩, [], true, true⟩
  | .val info =>
    if info.isEmpty then
      ⟨.error ⟨503, "Unable to retrieve data for ticker: " ++ ticker⟩, [], true, true⟩
    else
      let cleaned := cleanInfo info
      ⟨.ok (.obj cleaned), [⟨key, .obj cleaned, cacheDuration "ticker_info"⟩], true, true⟩

/-- `YFinanceService.get_ticker_info` (lines 90-135): the cache hit test is
`if cached_data:` — Python truthiness — so a falsy cached value (for
instance an empty dict) falls through to the fetch path exactly like a
miss. -/
def getTickerInfo (ticker : String) (cache : Cache)
    (provider : Upstream (List (String × JVal))) : OpTrace (Except HTTPEx JVal) :=
  let key := tickerInfoCacheKey ticker
  match cacheGet cache key with
  | some v =>
    if v.truthy then ⟨.ok v, [], true, false⟩
    else fetchTickerInfo ticker key provider
  | none => fetchTickerInfo ticker key provider

/-- A pandas table with single-level columns, as returned by
`yf.Ticker(...).history`.  Index entries are represented by their ISO-8601
renderings (`d.isoformat()`); `datetimeIndex` records whether the index is a
DatetimeIndex (true for every table the provider returns). -/
structure DataFrame where
  index : List String
  datetimeIndex : Bool
  cols : List (String × List JVal)

/-- pandas `df.empty`: true when either axis has length zero. -/
def DataFrame.empty? (df : DataFrame) : Bool := df.index.isEmpty || df.cols.isEmpty

/-- The serialized payload `get_historical_data` caches (lines 172-175): a
two-entry mapping holding, under the key `index`, the ISO renderings of the
index (`isoformat` per entry), and under the key `data`, the result of
`to_dict` in list mode — the data columns as parallel arrays keyed by field
name. -/
def serializeHistData (df : DataFrame) : JVal :=
  .obj [("index", .arr (df.index.map JVal.str)),
        ("data", .obj (df.cols.map fun c => (c.1, .arr c.2)))]

/-- Model of `pd.DataFrame(d)` applied to a string-keyed mapping `d`, as the
cache-hit path of `get_historical_data` does on line 160: each top-level key
of the mapping becomes one column, and no `pd.to_datetime` is applied, so
the resulting index is not a DatetimeIndex.  The model keeps cell contents
at the granularity the development needs (an array value contributes its
elements, any other value stays one opaque cell) and does not attempt the
constructors index-alignment details, which no theorem below relies on. -/
def pdDataFrameOfDict (fields : List (String × JVal)) : DataFrame :=
  { index := [],
    datetimeIndex := false,
    cols := fields.map fun kv =>
      (kv.1, match kv.2 with
             | .arr items => items
             | v => [v]) }

/-- Whether a cached value is the negative marker: `cached_data == "ERROR"`. -/
def JVal.isErrorMarker : JVal → Bool
  | .str s => s == "ERROR"
  | _ => false

/-- The cache key of `get_historical_data` (line 153):
`f"historical:{ticker.upper()}:{period}:{auto_adjust}"`. -/
def historicalCacheKey (ticker period : String) (autoAdjust : Bool) : String :=
  "historical:" ++ pyUpper ticker ++ ":" ++ period ++ ":" ++ pyBoolStr autoAdjust

/-- `YFinanceService.get_historical_data` (lines 137-187).  A cache hit that
is the `"ERROR"` marker resolves to `None`; any other hit is rebuilt with
`pd.DataFrame(cached_data)` applied to the serialized wrapper itself.  On a
miss, an empty provider result or a provider exception caches the marker
with a 300 second expiry and resolves to `None`; a non-empty result is
serialized and cached with the historical TTL. -/
def getHistoricalData (ticker period : String) (autoAdjust : Bool) (cache : Cache)
    (provider : Upstream DataFrame) : OpTrace (Option DataFrame) :=
  let key := historicalCacheKey ticker period autoAdjust
  match cacheGet cache key with
  | some v =>
    if v.isErrorMarker then ⟨none, [], true, false⟩
    else ⟨some (pdDataFrameOfDict v.objFields), [], true, false⟩
  | none =>
    match provider with
    | .exn => ⟨none, [⟨key, .str "ERROR", 300⟩], true, true⟩
    | .val histData =>
      if histData.empty? then ⟨none, [⟨key, .str "ERROR", 300⟩], true, true⟩
      else
        ⟨some histData,
          [⟨key, serializeHistData histData, cacheDuration "historical"⟩], true, true⟩

/-- A pandas table with two-level `(ticker, field)` columns, as returned by
`yf.Tickers(...).history`.  Entries of `columns` are the column label pairs
in stored order; `data` is the row-major value matrix; index entries are
represented by their ISO-8601 renderings. -/
structure BulkDataFrame where
  index : List String
  datetimeIndex : Bool
  columns : List (String × String)
  data : List (List JVal)

/-- pandas `df.empty` for the two-level table. -/
def BulkDataFrame.empty? (df : BulkDataFrame) : Bool :=
  df.index.isEmpty || df.columns.isEmpty

/-- `pd.DataFrame()`: the empty table with a default index. -/
def emptyBulkDataFrame : BulkDataFrame := ⟨[], false, [], []⟩

/-- The serialized payload `get_bulk_historical_data` caches (lines 221-225):
the index as ISO strings, `[list(col) for col in hist_data.columns]` as
two-element lists, and `hist_data.values.tolist()` as the row-major
matrix. -/
def serializeBulkHistData (df : BulkDataFrame) : JVal :=
  .obj [("index", .arr (df.index.map JVal.str)),
        ("columns", .arr (df.columns.map fun c => .arr [.str c.1, .str c.2])),
        ("data", .arr (df.data.map JVal.arr))]

/-- Decode a list of string values, failing on any non-string. -/
def decodeStrList : List JVal → Option (List String)
  | [] => some []
  | .str s :: rest => (decodeStrList rest).map (s :: ·)
  | _ => none

/-- Decode a list of two-element `[ticker, field]` label lists back into
label pairs (`pd.MultiIndex.from_tuples` on line 324), failing on any other
shape. -/
def decodeColPairs : List JVal → Option (List (String × String))
  | [] => some []
  | .arr [.str t, .str f] :: rest => (decodeColPairs rest).map ((t, f) :: ·)
  | _ => none

/-- Decode a row-major matrix, failing on any non-list row. -/
def decodeRows : List JVal → Option (List (List JVal))
  | [] => some []
  | .arr r :: rest => (decodeRows rest).map (r :: ·)
  | _ => none

/-- `YFinanceService._reconstruct_bulk_dataframe` (lines 320-334):
`pd.to_datetime` on the cached index (yielding a DatetimeIndex; the stored
entries are `isoformat` outputs, so parsing succeeds on every payload the
service writes), `pd.MultiIndex.from_tuples` on the cached column pairs, and
`pd.DataFrame(data, index=index, columns=columns)`.  Any failure inside the
`try` — a missing key, a malformed index, column or data entry, or a shape
mismatch rejected by the constructor — is caught and degrades to the empty
table. -/
def reconstructBulkDataframe (cached : JVal) : BulkDataFrame :=
  let idx? := match pyGet cached.objFields "index" with
              | .arr items => decodeStrList items
              | _ => none
  let cols? := match pyGet cached.objFields "columns" with
               | .arr items => decodeColPairs items
               | _ => none
  let rows? := match pyGet cached.objFields "data" with
               | .arr items => decodeRows items
               | _ => none
  match idx?, cols?, rows? with
  | some idx, some cols, some rows =>
    if rows.length == idx.length && rows.all (fun r => r.length == cols.length) then
      ⟨idx, true, cols, rows⟩
    else emptyBulkDataFrame
  | _, _, _ => emptyBulkDataFrame

/-- The cache key of `get_bulk_historical_data` (line 203): the literal
`bulk_historical`, the symbols sorted by the built-in `sorted` and joined
by colons, and the period — the symbols are joined exactly as given (no
case normalization appears on this line). -/
def bulkHistoricalCacheKey (tickers : List String) (period : String) : String :=
  "bulk_historical:" ++ String.intercalate ":" (pySortStrings tickers) ++ ":" ++ period

/-- `YFinanceService.get_bulk_historical_data` (lines 189-236).  A hit on the
`"ERROR"` marker yields the empty table; any other hit is rebuilt by
`_reconstruct_bulk_dataframe`.  On a miss, an empty result or provider
exception caches the marker for 300 seconds and yields the empty table; a
non-empty result is serialized and cached with the historical TTL. -/
def getBulkHistoricalData (tickers : List String) (period : String) (cache : Cache)
    (provider : Upstream BulkDataFrame) : OpTrace BulkDataFrame :=
  let key := bulkHistoricalCacheKey tickers period
  match cacheGet cache key with
  | some v =>
    if v.isErrorMarker then ⟨emptyBulkDataFrame, [], true, false⟩
    else ⟨reconstructBulkDataframe v, [], true, false⟩
  | none =>
    match provider with
    | .exn => ⟨emptyBulkDataFrame, [⟨key, .str "ERROR", 300⟩], true, true⟩
    | .val histData =>
      if histData.empty? then
        ⟨emptyBulkDataFrame, [⟨key, .str "ERROR", 300⟩], true, true⟩
      else
        ⟨histData,
          [⟨key, serializeBulkHistData histData, cacheDuration "historical"⟩], true, true⟩

/-- The cache key of `search_tickers` (line 250):
`f"ticker_search:{query.lower()}"` — built from the lower-cased query alone;
`limit` does not occur in it. -/
def searchCacheKey (query : String) : String := "ticker_search:" ++ pyLower query

/-- The filtering loop of `search_tickers` (lines 260-264): keep the quotes
whose `symbol` field is truthy, dropping the rest (quotes are dicts; a quote
missing the field, or carrying a falsy one, is logged and skipped). -/
def validSearchResults (items : List JVal) : List JVal :=
  items.filter fun item => (pyGet item.objFields "symbol").truthy

/-- The fetch-and-cache path of `search_tickers` (lines 256-278): a provider
exception surfaces as a 500 and writes nothing; otherwise the filtered full
result list is cached with the search TTL and the first `limit` entries are
returned. -/
def fetchSearch (key : String) (limit : Nat)
    (provider : Upstream (List JVal)) : OpTrace (Except HTTPEx (List JVal)) :=
  match provider with
  | .exn => ⟨.error ⟨500, "yfinance failed to search for tickers"⟩, [], true, true⟩
  | .val data =>
    let results := validSearchResults data
    ⟨.ok (results.take limit),
      [⟨key, .arr results, cacheDuration "search"⟩], true, true⟩

/-- `YFinanceService.search_tickers` (lines 239-278): the hit test is
`if cached_data:` — truthiness — so a cached empty list falls through to the
fetch path like a miss; a truthy cached list is sliced to `limit`. -/
def searchTickers (query : String) (limit : Nat) (cache : Cache)
    (provider : Upstream (List JVal)) : OpTrace (Except HTTPEx (List JVal)) :=
  let key := searchCacheKey query
  match cacheGet cache key with
  | some v =>
    if v.truthy then ⟨.ok (v.arrItems.take limit), [], true, false⟩
    else fetchSearch key limit provider
  | none => fetchSearch key limit provider

/-- `YFinanceService.get_current_price` (lines 280-295): the `or` of the
`regularMarketPrice` and `currentPrice` entries of the `get_ticker_info`
result; any exception — an error from the info lookup, or a
cached non-dict payload on which `.get` fails — is caught and yields `None`
(the price lookup is best-effort). -/
def getCurrentPrice (ticker : String) (cache : Cache)
    (provider : Upstream (List (String × JVal))) : JVal :=
  match (getTickerInfo ticker cache provider).result with
  | .error _ => .null
  | .ok info =>
    match info with
    | .obj fields => pyOr (pyGet fields "regularMarketPrice") (pyGet fields "currentPrice")
    | _ => .null

/-- A concrete one-session, one-field table, used to evaluate the historical
serialization round trip. -/
def demoHistFrame : DataFrame :=
  ⟨["2024-01-02T00:00:00"], true, [("Open", [.num 100])]⟩

/-- A concrete two-session, two-ticker bulk table, used to evaluate the bulk
serialization round trip. -/
def demoBulkFrame : BulkDataFrame :=
  ⟨["2024-01-02T00:00:00", "2024-01-03T00:00:00"], true,
   [("AAPL", "Open"), ("AAPL", "Close"), ("MSFT", "Open")],
   [[.num 1, .num 2, .num 3], [.num 4, .num 5, .num 6]]⟩

/-- A concrete provider search payload: five quotes, the second lacking a
`symbol` field (the concrete scenario of the spec). -/
def demoSearchItems : List JVal :=
  [.obj [("symbol", .str "AAPL"), ("shortname", .str "Apple Inc.")],
   .obj [("shortname", .str "No symbol here")],
   .obj [("symbol", .str "AAPL.MX")],
   .obj [("symbol", .str "APLE")],
   .obj [("symbol", .str "AAPD")]]

theorem charToNat_inj {a b : Char} (h : a.toNat = b.toNat) : a = b := by
  apply Char.ext
  unfold Char.toNat at h
  exact UInt32.ext h

theorem charListLe_cases (a b : Char) (as bs : List Char) :
    charListLe (a :: as) (b :: bs) = true ↔
      a.toNat < b.toNat ∨ (a.toNat = b.toNat ∧ charListLe as bs = true) := by
  rcases Nat.lt_trichotomy a.toNat b.toNat with h | h | h
  · simp [charListLe, h]
  · simp [charListLe, h, Nat.lt_irrefl]
  · simp [charListLe, h, show ¬ a.toNat < b.toNat from by omega,
      show ¬ a.toNat = b.toNat from by omega]

theorem charListLe_total (as bs : List Char) :
    charListLe as bs = true ∨ charListLe bs as = true := by
  induction as generalizing bs with
  | nil => left; rfl
  | cons a as ih =>
    cases bs with
    | nil => right; rfl
    | cons b bs =>
      rcases Nat.lt_trichotomy a.toNat b.toNat with h | h | h
      · left; rw [charListLe_cases]; exact Or.inl h
      · rcases ih bs with h2 | h2
        · left; rw [charListLe_cases]; exact Or.inr ⟨h, h2⟩
        · right; rw [charListLe_cases]; exact Or.inr ⟨h.symm, h2⟩
      · right; rw [charListLe_cases]; exact Or.inl h

theorem charListLe_trans (as bs cs : List Char)
    (h1 : charListLe as bs = true) (h2 : charListLe bs cs = true) :
    charListLe as cs = true := by
  induction as generalizing bs cs with
  | nil => rfl
  | cons a as ih =>
    cases bs with
    | nil => exact absurd h1 (by simp [charListLe])
    | cons b bs =>
      cases cs with
      | nil => exact absurd h2 (by simp [charListLe])
      | cons c cs =>
        rw [charListLe_cases] at h1 h2 ⊢
        rcases h1 with h1 | ⟨h1e, h1r⟩ <;> rcases h2 with h2 | ⟨h2e, h2r⟩
        · exact Or.inl (by omega)
        · exact Or.inl (by omega)
        · exact Or.inl (by omega)
        · exact Or.inr ⟨by omega, ih bs cs h1r h2r⟩

theorem charListLe_antisymm (as bs : List Char)
    (h1 : charListLe as bs = true) (h2 : charListLe bs as = true) : as = bs := by
  induction as generalizing bs with
  | nil =>
    cases bs with
    | nil => rfl
    | cons b bs => exact absurd h2 (by simp [charListLe])
  | cons a as ih =>
    cases bs with
    | nil => exact absurd h1 (by simp [charListLe])
    | cons b bs =>
      rw [charListLe_cases] at h1 h2
      rcases h1 with h1 | ⟨h1e, h1r⟩
      · rcases h2 with h2 | ⟨h2e, _⟩ <;> omega
      · rcases h2 with h2 | ⟨h2e, h2r⟩
        · omega
        · rw [charToNat_inj h1e, ih bs h1r h2r]

instance : IsTotal String pyStrLeP := ⟨fun a b => charListLe_total a.data b.data⟩

instance : IsTrans String pyStrLeP :=
  ⟨fun a b c => charListLe_trans a.data b.data c.data⟩

instance : IsAntisymm String pyStrLeP :=
  ⟨fun a b h1 h2 => String.ext (charListLe_antisymm a.data b.data h1 h2)⟩

/-- Permutation-equal string lists sort to the same list: the code-point
order is total, transitive and antisymmetric, so the sorted permutation is
unique. -/
theorem pySortStrings_perm_eq {t1 t2 : List String} (h : t1.Perm t2) :
    pySortStrings t1 = pySortStrings t2 :=
  List.eq_of_perm_of_sorted
    ((List.perm_insertionSort pyStrLeP t1).trans
      (h.trans (List.perm_insertionSort pyStrLeP t2).symm))
    (List.sorted_insertionSort pyStrLeP t1)
    (List.sorted_insertionSort pyStrLeP t2)

/-- C3, as stated, is false on the code: line 203 sorts the symbols but does
not upper-case them, so the key for `["aapl"]` is `bulk_historical:aapl:1y`,
and two symbol lists differing only in letter case address different cache
entries. -/
theorem bulkKey_not_case_normalized :
    bulkHistoricalCacheKey ["aapl"] "1y" = "bulk_historical:aapl:1y" ∧
    bulkHistoricalCacheKey ["aapl"] "1y" ≠ bulkHistoricalCacheKey ["AAPL"] "1y" := by
  exact ⟨by decide, by decide⟩

/-- C3 (amended): for every list of ticker symbols and every period,
`get_bulk_historical_data` builds its cache key from the symbols sorted in
code-point order and joined by `:` (no case normalization), so two requests
whose symbol lists differ only in element order address the same cache
entry; lists differing in letter case do not. -/
theorem bulkHistoricalCacheKey_order_invariant (t1 t2 : List String) (period : String)
    (h : t1.Perm t2) :
    bulkHistoricalCacheKey t1 period = bulkHistoricalCacheKey t2 period := by
  unfold bulkHistoricalCacheKey
  rw [pySortStrings_perm_eq h]

/-- Witness for the amended C3: swapping `AAPL` and `MSFT` leaves the bulk
cache key unchanged. -/
theorem bulkHistoricalCacheKey_order_invariant_witness :
    bulkHistoricalCacheKey ["MSFT", "AAPL"] "6mo"
      = bulkHistoricalCacheKey ["AAPL", "MSFT"] "6mo" :=
  bulkHistoricalCacheKey_order_invariant ["MSFT", "AAPL"] ["AAPL", "MSFT"] "6mo"
    (List.Perm.swap "AAPL" "MSFT" [])

/-- C6: a ticker that is empty, longer than 10 characters, or containing a
character outside alphanumerics, `.` and `^` makes `validate_ticker` raise a
400 (InvalidInput) before any cache or provider interaction: nothing is
read from or written to the cache and the provider is not called. -/
theorem validateTicker_rejects_malformed (ticker : String) (cache : Cache)
    (provider : Upstream (List (String × JVal)))
    (h : ticker.data.isEmpty = true ∨ 10 < ticker.data.length ∨
      (ticker.data.all fun c => c.isAlphanum || c == '.' || c == '^') = false) :
    (∃ d, (validateTicker ticker cache provider).result = .error ⟨400, d⟩) ∧
    (validateTicker ticker cache provider).writes = [] ∧
    (validateTicker ticker cache provider).cacheRead = false ∧
    (validateTicker ticker cache provider).providerCalled = false := by
  by_cases h1 : ticker.data.isEmpty = true
  · have e : validateTicker ticker cache provider
        = ⟨.error ⟨400, "Ticker symbol is required"⟩, [], false, false⟩ := by
      unfold validateTicker
      rw [if_pos h1]
    rw [e]
    exact ⟨⟨_, rfl⟩, rfl, rfl, rfl⟩
  · by_cases h2 : 10 < ticker.data.length
    · have e : validateTicker ticker cache provider
          = ⟨.error ⟨400, "Ticker symbol is too long (max 10 characters)"⟩,
              [], false, false⟩ := by
        unfold validateTicker
        rw [if_neg h1, if_pos h2]
      rw [e]
      exact ⟨⟨_, rfl⟩, rfl, rfl, rfl⟩
    · have h3 : (ticker.data.all fun c => c.isAlphanum || c == '.' || c == '^') = false := by
        rcases h with h | h | h
        · exact absurd h h1
        · exact absurd h h2
        · exact h
      have h3' : (!(ticker.data.all fun c => c.isAlphanum || c == '.' || c == '^')) = true := by
        rw [h3]; rfl
      have e : validateTicker ticker cache provider
          = ⟨.error ⟨400,
              "Invalid ticker symbol format (only alphanumeric, dots and carets allowed)"⟩,
              [], false, false⟩ := by
        unfold validateTicker
        rw [if_neg h1, if_neg h2, if_pos h3']
      rw [e]
      exact ⟨⟨_, rfl⟩, rfl, rfl, rfl⟩

/-- Witness for C6 at the concrete 13-character symbol `TOOLONGTICKER`. -/
theorem validateTicker_rejects_malformed_witness :
    (∃ d, (validateTicker "TOOLONGTICKER" [] (.val [])).result = .error ⟨400, d⟩) ∧
    (validateTicker "TOOLONGTICKER" [] (.val [])).writes = [] ∧
    (validateTicker "TOOLONGTICKER" [] (.val [])).cacheRead = false ∧
    (validateTicker "TOOLONGTICKER" [] (.val [])).providerCalled = false :=
  validateTicker_rejects_malformed "TOOLONGTICKER" [] (.val []) (by decide)

/-- C1 fails on the code: on a miss with an empty provider payload,
`get_ticker_info` raises the 404 inside its own `try`, the broad
`except Exception` catches it, and the caller observes the same 503
(UpstreamUnavailable) used for provider exceptions — not a distinct
NotFound.  The never-cached part holds: neither failure path writes. -/
theorem getTickerInfo_empty_payload_is_503 :
    (getTickerInfo "AAPL" [] (.val [])).result
      = .error ⟨503, "Unable to retrieve data for ticker: AAPL"⟩ ∧
    (getTickerInfo "AAPL" [] (.val [])).writes = [] ∧
    (getTickerInfo "AAPL" [] (.exn : Upstream (List (String × JVal)))).result
      = .error ⟨503, "Unable to retrieve data for ticker: AAPL"⟩ ∧
    (getTickerInfo "AAPL" [] (.exn : Upstream (List (String × JVal)))).writes = [] :=
  ⟨rfl, rfl, rfl, rfl⟩

/-- C2 fails on the code: a non-empty fetch caches the serialized wrapper
(ISO index strings plus column arrays), but the cache-hit path rebuilds with
`pd.DataFrame(cached_data)` applied to that wrapper itself, so the rebuilt
table has the wrapper keys `index` and `data` as its column set and no
DatetimeIndex, while the original table had column set `Open` and a
DatetimeIndex — the reconstruction contract (same index type, same column
set) is violated. -/
theorem getHistoricalData_hit_reconstruction_broken :
    (getHistoricalData "AAPL" "1y" false [] (.val demoHistFrame)).result
      = some demoHistFrame ∧
    (getHistoricalData "AAPL" "1y" false [] (.val demoHistFrame)).writes
      = [⟨historicalCacheKey "AAPL" "1y" false, serializeHistData demoHistFrame, 600⟩] ∧
    ((getHistoricalData "AAPL" "1y" false
        (applyWrites [] (getHistoricalData "AAPL" "1y" false [] (.val demoHistFrame)).writes)
        (.val demoHistFrame)).result.map
      fun df => (df.cols.map Prod.fst, df.datetimeIndex))
      = some (["index", "data"], false) ∧
    (demoHistFrame.cols.map Prod.fst, demoHistFrame.datetimeIndex) = (["Open"], true) :=
  ⟨rfl, rfl, rfl, rfl⟩

/-- Reading back the key just written: the newest write wins. -/
theorem cacheGetEntry_set_self (c : Cache) (k : String) (v : JVal) (t : Nat) :
    cacheGetEntry (cacheSet c k v t) k = some (v, t) := by
  simp [cacheGetEntry, cacheSet, List.find?]

/-- C4: on a validation cache miss for a syntactically valid ticker,
`validate_ticker` caches `True` with the 3600 second validation TTL when the
provider payload is non-empty and carries a non-`None`
`regularMarketPrice`; on a negative payload the 404 raised after the first
write is caught by the broad `except`, which re-caches `False` with a 60
second expiry, so the final cached value is `False` with TTL 60 — as it
also is when the provider raises. -/
theorem validateTicker_miss_ttl (ticker : String) (cache : Cache)
    (info : List (String × JVal))
    (h1 : ¬ ticker.data.isEmpty = true)
    (h2 : ¬ 10 < ticker.data.length)
    (h3 : (ticker.data.all fun c => c.isAlphanum || c == '.' || c == '^') = true)
    (hmiss : cacheGet cache (validationCacheKey ticker) = none) :
    (((!info.isEmpty) && !(pyGet info "regularMarketPrice").isNull) = true →
      (validateTicker ticker cache (.val info)).writes
        = [⟨validationCacheKey ticker, .bool true, 3600⟩] ∧
      cacheGetEntry (applyWrites cache (validateTicker ticker cache (.val info)).writes)
        (validationCacheKey ticker) = some (.bool true, 3600)) ∧
    (((!info.isEmpty) && !(pyGet info "regularMarketPrice").isNull) = false →
      (validateTicker ticker cache (.val info)).writes
        = [⟨validationCacheKey ticker, .bool false, 3600⟩,
           ⟨validationCacheKey ticker, .bool false, 60⟩] ∧
      cacheGetEntry (applyWrites cache (validateTicker ticker cache (.val info)).writes)
        (validationCacheKey ticker) = some (.bool false, 60)) ∧
    ((validateTicker ticker cache .exn).writes
        = [⟨validationCacheKey ticker, .bool false, 60⟩] ∧
      cacheGetEntry (applyWrites cache (validateTicker ticker cache .exn).writes)
        (validationCacheKey ticker) = some (.bool false, 60)) := by
  have h3' : ¬ (!(ticker.data.all fun c => c.isAlphanum || c == '.' || c == '^')) = true := by
    rw [h3]; decide
  have ev : validateTicker ticker cache (.val info)
      = if ((!info.isEmpty) && !(pyGet info "regularMarketPrice").isNull) = true then
          ⟨.ok true,
            [⟨validationCacheKey ticker,
              .bool ((!info.isEmpty) && !(pyGet info "regularMarketPrice").isNull),
              cacheDuration "validation"⟩], true, true⟩
        else
          ⟨.error ⟨404, "Ticker not found or invalid."⟩,
            [⟨validationCacheKey ticker,
              .bool ((!info.isEmpty) && !(pyGet info "regularMarketPrice").isNull),
              cacheDuration "validation"⟩,
             ⟨validationCacheKey ticker, .bool false, 60⟩], true, true⟩ := by
    simp only [validateTicker]
    rw [if_neg h1, if_neg h2, if_neg h3', hmiss]
  have ee : validateTicker ticker cache .exn
      = ⟨.error ⟨404, "Ticker not found or invalid."⟩,
          [⟨validationCacheKey ticker, .bool false, 60⟩], true, true⟩ := by
    simp only [validateTicker]
    rw [if_neg h1, if_neg h2, if_neg h3', hmiss]
  refine ⟨?_, ?_, ?_⟩
  · intro hv
    rw [ev, if_pos hv, hv]
    exact ⟨rfl, cacheGetEntry_set_self cache _ _ _⟩
  · intro hv
    rw [ev, if_neg (by rw [hv]; decide), hv]
    constructor
    · rfl
    · show cacheGetEntry (applyWrites cache
        [⟨validationCacheKey ticker, .bool false, cacheDuration "validation"⟩,
         ⟨validationCacheKey ticker, .bool false, 60⟩]) (validationCacheKey ticker)
        = some (.bool false, 60)
      exact cacheGetEntry_set_self _ _ _ _
  · rw [ee]
    exact ⟨rfl, cacheGetEntry_set_self cache _ _ _⟩

/-- Witness for C4 at `aapl`: a live price caches `(True, 3600)`; a payload
without one leaves `(False, 60)` as the final cached entry; a provider
exception likewise. -/
theorem validateTicker_miss_ttl_witness :
    (validateTicker "aapl" [] (.val [("regularMarketPrice", .num 123)])).writes
      = [⟨validationCacheKey "aapl", .bool true, 3600⟩] ∧
    cacheGetEntry (applyWrites []
        (validateTicker "aapl" [] (.val [("shortName", .str "x")])).writes)
      (validationCacheKey "aapl") = some (.bool false, 60) ∧
    cacheGetEntry (applyWrites [] (validateTicker "aapl" [] .exn).writes)
      (validationCacheKey "aapl") = some (.bool false, 60) :=
  ⟨((validateTicker_miss_ttl "aapl" [] [("regularMarketPrice", .num 123)]
      (by decide) (by decide) (by decide) rfl).1 (by decide)).1,
   ((validateTicker_miss_ttl "aapl" [] [("shortName", .str "x")]
      (by decide) (by decide) (by decide) rfl).2.1 (by decide)).2,
   (validateTicker_miss_ttl "aapl" [] []
      (by decide) (by decide) (by decide) rfl).2.2.2⟩

/-- C5: on a miss at `historical:{UPPER(symbol)}:{period}:{adjust}`, both a
provider exception and an empty provider series cache the `"ERROR"` marker
with a 300 second expiry and resolve to `None` (Empty, not an error); while
the marker is cached, the same call resolves to `None` without contacting
the provider and without writing. -/
theorem getHistoricalData_negative_cache (ticker period : String) (adjust : Bool)
    (cache : Cache) (df : DataFrame) :
    (cacheGet cache (historicalCacheKey ticker period adjust) = none →
      ((getHistoricalData ticker period adjust cache .exn).result = none ∧
       (getHistoricalData ticker period adjust cache .exn).writes
         = [⟨historicalCacheKey ticker period adjust, .str "ERROR", 300⟩]) ∧
      (df.empty? = true →
        (getHistoricalData ticker period adjust cache (.val df)).result = none ∧
        (getHistoricalData ticker period adjust cache (.val df)).writes
          = [⟨historicalCacheKey ticker period adjust, .str "ERROR", 300⟩])) ∧
    (∀ p : Upstream DataFrame,
      cacheGet cache (historicalCacheKey ticker period adjust) = some (.str "ERROR") →
      (getHistoricalData ticker period adjust cache p).result = none ∧
      (getHistoricalData ticker period adjust cache p).writes = [] ∧
      (getHistoricalData ticker period adjust cache p).providerCalled = false) := by
  constructor
  · intro hmiss
    constructor
    · have e : getHistoricalData ticker period adjust cache .exn
          = ⟨none, [⟨historicalCacheKey ticker period adjust, .str "ERROR", 300⟩],
              true, true⟩ := by
        simp only [getHistoricalData, hmiss]
      rw [e]
      exact ⟨rfl, rfl⟩
    · intro hemp
      have e : getHistoricalData ticker period adjust cache (.val df)
          = ⟨none, [⟨historicalCacheKey ticker period adjust, .str "ERROR", 300⟩],
              true, true⟩ := by
        simp only [getHistoricalData, hmiss]
        rw [if_pos hemp]
      rw [e]
      exact ⟨rfl, rfl⟩
  · intro p hhit
    have e : getHistoricalData ticker period adjust cache p
        = ⟨none, [], true, false⟩ := by
      simp only [getHistoricalData, hhit]
      rfl
    rw [e]
    exact ⟨rfl, rfl, rfl⟩

/-- Witness for C5 at the concrete scenario `MSFT`, `1y`, unadjusted: the
empty fetch writes the marker at `historical:MSFT:1y:False` for 300 seconds
and resolves to `None`; with the marker cached, the repeated call resolves
to `None` without a provider call. -/
theorem getHistoricalData_negative_cache_witness :
    ((getHistoricalData "MSFT" "1y" false [] (.val ⟨[], true, []⟩)).result = none ∧
     (getHistoricalData "MSFT" "1y" false [] (.val ⟨[], true, []⟩)).writes
       = [⟨historicalCacheKey "MSFT" "1y" false, .str "ERROR", 300⟩]) ∧
    ((getHistoricalData "MSFT" "1y" false
        [⟨"historical:MSFT:1y:False", .str "ERROR", 300⟩] .exn).result = none ∧
     (getHistoricalData "MSFT" "1y" false
        [⟨"historical:MSFT:1y:False", .str "ERROR", 300⟩] .exn).providerCalled = false) :=
  ⟨((getHistoricalData_negative_cache "MSFT" "1y" false [] ⟨[], true, []⟩).1 rfl).2 rfl,
   ⟨((getHistoricalData_negative_cache "MSFT" "1y" false
        [⟨"historical:MSFT:1y:False", .str "ERROR", 300⟩] ⟨[], true, []⟩).2 .exn rfl).1,
    ((getHistoricalData_negative_cache "MSFT" "1y" false
        [⟨"historical:MSFT:1y:False", .str "ERROR", 300⟩] ⟨[], true, []⟩).2 .exn rfl).2.2⟩⟩

/-- Decoding inverts the encoding of the index strings. -/
theorem decodeStrList_map_str (l : List String) :
    decodeStrList (l.map JVal.str) = some l := by
  induction l with
  | nil => rfl
  | cons a l ih => simp [decodeStrList, ih]

/-- Decoding inverts the encoding of the `(ticker, field)` column pairs. -/
theorem decodeColPairs_map (l : List (String × String)) :
    decodeColPairs (l.map fun c => JVal.arr [.str c.1, .str c.2]) = some l := by
  induction l with
  | nil => rfl
  | cons a l ih => simp [decodeColPairs, ih]

/-- Decoding inverts the encoding of the row-major matrix. -/
theorem decodeRows_map (l : List (List JVal)) :
    decodeRows (l.map JVal.arr) = some l := by
  induction l with
  | nil => rfl
  | cons a l ih => simp [decodeRows, ih]

/-- C7: reconstructing the serialized payload of a well-shaped, non-empty
bulk table (DatetimeIndex; one row per index entry; one cell per column
pair in every row) yields the table back exactly — in particular the same
ticker set, the same field set per ticker, the same row count and the same
chronological order. -/
theorem bulkSerializationRoundTrip (df : BulkDataFrame)
    (hdt : df.datetimeIndex = true)
    (hlen : df.data.length = df.index.length)
    (hrows : ∀ r ∈ df.data, r.length = df.columns.length) :
    reconstructBulkDataframe (serializeBulkHistData df) = df := by
  obtain ⟨idx, dt, cols, data⟩ := df
  simp only at hdt hlen hrows
  subst hdt
  have hl : (data.length == idx.length) = true := beq_iff_eq.mpr hlen
  have hall : (data.all fun r => r.length == cols.length) = true := by
    rw [List.all_eq_true]
    intro r hr
    exact beq_iff_eq.mpr (hrows r hr)
  have step : reconstructBulkDataframe (serializeBulkHistData ⟨idx, true, cols, data⟩)
      = (match decodeStrList (idx.map JVal.str),
               decodeColPairs (cols.map fun c => JVal.arr [.str c.1, .str c.2]),
               decodeRows (data.map JVal.arr) with
         | some i, some c2, some r =>
           if r.length == i.length && r.all (fun row => row.length == c2.length) then
             (⟨i, true, c2, r⟩ : BulkDataFrame)
           else emptyBulkDataFrame
         | _, _, _ => emptyBulkDataFrame) := rfl
  rw [step, decodeStrList_map_str, decodeColPairs_map, decodeRows_map]
  show (if data.length == idx.length && data.all (fun row => row.length == cols.length) then
          (⟨idx, true, cols, data⟩ : BulkDataFrame)
        else emptyBulkDataFrame) = ⟨idx, true, cols, data⟩
  rw [hl, hall]
  rfl

/-- Witness for C7 at the concrete two-row, three-column bulk table. -/
theorem bulkSerializationRoundTrip_witness :
    reconstructBulkDataframe (serializeBulkHistData demoBulkFrame) = demoBulkFrame :=
  bulkSerializationRoundTrip demoBulkFrame rfl rfl (by decide)

/-- C8: the search cache key is built from the lower-cased query alone
(independent of `limit`); on a miss, the filtered full provider list —
quotes without a truthy `symbol` dropped — is cached for 1800 seconds and
the first `limit` entries are returned; on a truthy hit, calls with the
same query and different limits read the same entry, perform no provider
call and no write, and differ only in how the cached list is truncated. -/
theorem searchTickers_cache_semantics (q q2 : String) (l l2 : Nat) (cache : Cache)
    (items : List JVal) (hq : pyLower q = pyLower q2) :
    searchCacheKey q = searchCacheKey q2 ∧
    (cacheGet cache (searchCacheKey q) = none →
      (searchTickers q l cache (.val items)).writes
        = [⟨searchCacheKey q, .arr (validSearchResults items), 1800⟩] ∧
      (searchTickers q l cache (.val items)).result
        = .ok ((validSearchResults items).take l)) ∧
    (∀ v, cacheGet cache (searchCacheKey q) = some v → v.truthy = true →
      (searchTickers q l cache (.val items)).result = .ok (v.arrItems.take l) ∧
      (searchTickers q2 l2 cache (.val items)).result = .ok (v.arrItems.take l2) ∧
      (searchTickers q l cache (.val items)).providerCalled = false ∧
      (searchTickers q l cache (.val items)).writes = []) := by
  have hkey : searchCacheKey q = searchCacheKey q2 := by
    unfold searchCacheKey
    rw [hq]
  refine ⟨hkey, ?_, ?_⟩
  · intro hmiss
    have e : searchTickers q l cache (.val items)
        = ⟨.ok ((validSearchResults items).take l),
            [⟨searchCacheKey q, .arr (validSearchResults items), cacheDuration "search"⟩],
            true, true⟩ := by
      simp only [searchTickers, hmiss, fetchSearch]
    rw [e]
    exact ⟨rfl, rfl⟩
  · intro v hhit htr
    have e1 : searchTickers q l cache (.val items)
        = ⟨.ok (v.arrItems.take l), [], true, false⟩ := by
      simp only [searchTickers, hhit]
      rw [if_pos htr]
    have hhit2 : cacheGet cache (searchCacheKey q2) = some v := by
      rw [← hkey]
      exact hhit
    have e2 : searchTickers q2 l2 cache (.val items)
        = ⟨.ok (v.arrItems.take l2), [], true, false⟩ := by
      simp only [searchTickers, hhit2]
      rw [if_pos htr]
    rw [e1, e2]
    exact ⟨rfl, rfl, rfl, rfl⟩

/-- Witness for C8 at the concrete scenario: query `ApPl` (same entry as
`APPL`), five provider quotes of which one lacks a symbol — the four valid
quotes are cached for 1800 seconds and the first three are returned. -/
theorem searchTickers_cache_semantics_witness :
    searchCacheKey "ApPl" = searchCacheKey "APPL" ∧
    (searchTickers "ApPl" 3 [] (.val demoSearchItems)).writes
      = [⟨searchCacheKey "ApPl", .arr (validSearchResults demoSearchItems), 1800⟩] ∧
    (searchTickers "ApPl" 3 [] (.val demoSearchItems)).result
      = .ok ((validSearchResults demoSearchItems).take 3) ∧
    (validSearchResults demoSearchItems).length = 4 :=
  ⟨(searchTickers_cache_semantics "ApPl" "APPL" 3 5 [] demoSearchItems (by decide)).1,
   ((searchTickers_cache_semantics "ApPl" "APPL" 3 5 [] demoSearchItems (by decide)).2.1 rfl).1,
   ((searchTickers_cache_semantics "ApPl" "APPL" 3 5 [] demoSearchItems (by decide)).2.1 rfl).2,
   by decide⟩

/-- C9: both `get_ticker_info` and `search_tickers` test a cache hit by
truthiness, so a cached empty dict (info) or cached empty list (search) is
treated exactly like a miss: the call behaves as on an empty cache and the
provider is consulted. -/
theorem truthyHit_empty_indistinguishable_from_miss (ticker q : String) (limit : Nat)
    (cache : Cache) (pInfo : Upstream (List (String × JVal))) (pSearch : Upstream (List JVal))
    (hinfo : cacheGet cache (tickerInfoCacheKey ticker) = some (.obj []))
    (hsearch : cacheGet cache (searchCacheKey q) = some (.arr [])) :
    getTickerInfo ticker cache pInfo = getTickerInfo ticker [] pInfo ∧
    (getTickerInfo ticker cache pInfo).providerCalled = true ∧
    searchTickers q limit cache pSearch = searchTickers q limit [] pSearch ∧
    (searchTickers q limit cache pSearch).providerCalled = true := by
  have e1 : getTickerInfo ticker cache pInfo
      = fetchTickerInfo ticker (tickerInfoCacheKey ticker) pInfo := by
    simp only [getTickerInfo, hinfo]
    rfl
  have e2 : getTickerInfo ticker [] pInfo
      = fetchTickerInfo ticker (tickerInfoCacheKey ticker) pInfo := rfl
  have e3 : searchTickers q limit cache pSearch
      = fetchSearch (searchCacheKey q) limit pSearch := by
    simp only [searchTickers, hsearch]
    rfl
  have e4 : searchTickers q limit [] pSearch
      = fetchSearch (searchCacheKey q) limit pSearch := rfl
  refine ⟨e1.trans e2.symm, ?_, e3.trans e4.symm, ?_⟩
  · rw [e1]
    cases pInfo with
    | exn => rfl
    | val info =>
      simp only [fetchTickerInfo]
      split
      · rfl
      · rfl
  · rw [e3]
    cases pSearch with
    | exn => rfl
    | val data => rfl

/-- Witness for C9: with an empty dict cached under `ticker_info:AAPL` and
an empty list under `ticker_search:appl`, both operations behave as on an
empty cache and reach the provider. -/
theorem truthyHit_empty_indistinguishable_from_miss_witness :
    getTickerInfo "AAPL"
        [⟨"ticker_info:AAPL", .obj [], 300⟩, ⟨"ticker_search:appl", .arr [], 1800⟩]
        (.val [("regularMarketPrice", .num 5)])
      = getTickerInfo "AAPL" [] (.val [("regularMarketPrice", .num 5)]) ∧
    (getTickerInfo "AAPL"
        [⟨"ticker_info:AAPL", .obj [], 300⟩, ⟨"ticker_search:appl", .arr [], 1800⟩]
        (.val [("regularMarketPrice", .num 5)])).providerCalled = true ∧
    searchTickers "appl" 3
        [⟨"ticker_info:AAPL", .obj [], 300⟩, ⟨"ticker_search:appl", .arr [], 1800⟩]
        (.val demoSearchItems)
      = searchTickers "appl" 3 [] (.val demoSearchItems) ∧
    (searchTickers "appl" 3
        [⟨"ticker_info:AAPL", .obj [], 300⟩, ⟨"ticker_search:appl", .arr [], 1800⟩]
        (.val demoSearchItems)).providerCalled = true :=
  truthyHit_empty_indistinguishable_from_miss "AAPL" "appl" 3
    [⟨"ticker_info:AAPL", .obj [], 300⟩, ⟨"ticker_search:appl", .arr [], 1800⟩]
    (.val [("regularMarketPrice", .num 5)]) (.val demoSearchItems) rfl rfl

/-- C10: `get_current_price` falls back by truthiness — whenever the info
result is a mapping whose `regularMarketPrice` is falsy (zero, `None` or
absent), the `currentPrice` field is returned instead (possibly `None`);
when the live field is truthy it is returned; and any error from the info
lookup yields `None` rather than an error. -/
theorem getCurrentPrice_truthy_fallback (ticker : String) (cache : Cache)
    (provider : Upstream (List (String × JVal))) :
    (∀ fields, (getTickerInfo ticker cache provider).result = .ok (.obj fields) →
      ((pyGet fields "regularMarketPrice").truthy = false →
        getCurrentPrice ticker cache provider = pyGet fields "currentPrice") ∧
      ((pyGet fields "regularMarketPrice").truthy = true →
        getCurrentPrice ticker cache provider = pyGet fields "regularMarketPrice")) ∧
    (∀ e, (getTickerInfo ticker cache provider).result = .error e →
      getCurrentPrice ticker cache provider = .null) := by
  constructor
  · intro fields h
    constructor
    · intro ht
      simp only [getCurrentPrice, h, pyOr]
      rw [if_neg (by rw [ht]; decide)]
    · intro ht
      simp only [getCurrentPrice, h, pyOr]
      rw [if_pos ht]
  · intro e h
    simp only [getCurrentPrice, h]

/-- Witness for C10: with cached info carrying `regularMarketPrice = 0` and
`currentPrice = 42`, the price resolves to 42; with an erroring lookup on an
empty cache, it resolves to `None`. -/
theorem getCurrentPrice_truthy_fallback_witness :
    getCurrentPrice "AAPL"
        [⟨"ticker_info:AAPL",
          .obj [("regularMarketPrice", .num 0), ("currentPrice", .num 42)], 300⟩]
        .exn = .num 42 ∧
    getCurrentPrice "AAPL" [] .exn = .null :=
  ⟨((getCurrentPrice_truthy_fallback "AAPL"
      [⟨"ticker_info:AAPL",
        .obj [("regularMarketPrice", .num 0), ("currentPrice", .num 42)], 300⟩]
      .exn).1 [("regularMarketPrice", .num 0), ("currentPrice", .num 42)] rfl).1 rfl,
   (getCurrentPrice_truthy_fallback "AAPL" [] .exn).2
     ⟨503, "Unable to retrieve data for ticker: AAPL"⟩ rfl⟩
